import Mathlib

/-!
Verification of the trade lifecycle & risk-management engine of the
bbai-trading-system repository (risk.py, executor.py, strategy_meanrev.py,
strategy_conservative.py, main.py), as a shallow embedding in Lean 4.

Python floats are modelled by exact rationals (ℚ); `round(x, 2)` is modelled
as round-half-to-even at two decimal places on exact rationals; `int(x)` is
modelled as truncation toward zero.  External collaborators (the brokerage
HTTP gateway) are modelled as function parameters: the price fetched per tick
is an input to the monitor, and the order gateway is a function from the
submitted share quantity to an optional order identifier.
-/

/-- Modelled from the spec: config.py is not part of the provided sources.
`RISK_PER_TRADE` is "a fixed fraction, e.g. 3%" (spec §4.1, and the sizing
scenario balance=$1000 → risk_amount=$30 forces 3%). -/
def RISK_PER_TRADE : ℚ := 3 / 100

/-- Modelled from the spec: config.py is not part of the provided sources.
`MAX_DAILY_LOSSES` is the daily loss threshold, "configured, e.g. 2"
(spec §3 and §8's governor scenarios use 2). -/
def MAX_DAILY_LOSSES : ℕ := 2

/-- Modelled from the spec: config.py is not part of the provided sources.
`STRATEGY2_LEVERAGE` is the mean-reversion leverage; executor.py's own
docstring for `open_meanrev_trade` states "with leverage × 2". -/
def STRATEGY2_LEVERAGE : ℚ := 2

/-- Python's `int(x)` applied to a rational: truncation toward zero. -/
def truncQ (q : ℚ) : ℤ :=
  if 0 ≤ q then ⌊q⌋ else -⌊-q⌋

/-- Python's `round(x, 2)`: round half to even at two decimal places,
on exact rationals. -/
def round2 (q : ℚ) : ℚ :=
  let s : ℚ := q * 100
  let f : ℤ := ⌊s⌋
  let r : ℚ := s - f
  let n : ℤ :=
    if r < 1/2 then f
    else if 1/2 < r then f + 1
    else if f % 2 = 0 then f else f + 1
  (n : ℚ) / 100

/-- strategy_conservative.py `ConservativeSignal` (timestamp omitted:
no claim concerns it). -/
structure ConservativeSignal where
  ticker      : String
  has_signal  : Bool
  entry_price : ℚ
  stop_loss   : ℚ
  target      : ℚ
  trail_stop  : ℚ
  reason      : String
deriving DecidableEq, Repr

/-- strategy_meanrev.py `MeanRevSignal` (timestamp omitted). -/
structure MeanRevSignal where
  ticker         : String
  has_signal     : Bool
  entry_price    : ℚ
  stop_loss      : ℚ
  target_tp1     : ℚ
  target_tp2     : ℚ
  target         : ℚ
  vwap           : ℚ
  rsi            : ℚ
  atr            : ℚ
  trail_step     : ℚ
  signal_quality : String
  reason         : String
deriving DecidableEq, Repr

/-- executor.py `OpenTrade` (opened_at omitted).  The source annotates
`quantity: int`, but Python dataclasses do not enforce annotations and
`open_meanrev_trade` in fact stores a float there, so the field is ℚ. -/
structure OpenTrade where
  ticker      : String
  strategy    : String
  order_id    : String
  entry_price : ℚ
  stop_loss   : ℚ
  target      : ℚ
  trail_stop  : ℚ
  trail_step  : ℚ
  quantity    : ℚ
  risk_amount : ℚ
deriving DecidableEq, Repr

/-- The dict returned by risk.py `calculate_position_size`. -/
structure Sizing where
  quantity    : ℤ
  risk_amount : ℚ
  risk_pct    : ℚ
  leverage    : ℚ
deriving DecidableEq, Repr

/-- risk.py `calculate_position_size` (lines 16-60).  `raise ValueError`
becomes `Except.error`. -/
def calculate_position_size (balance entry_price stop_loss : ℚ)
    (use_leverage : Bool) : Except String Sizing :=
  if entry_price ≤ 0 ∨ stop_loss ≤ 0 then
    .error "entry price and stop loss must be positive"
  else if stop_loss ≥ entry_price then
    .error "stop loss must be below entry price"
  else
    let leverage : ℚ := if use_leverage then STRATEGY2_LEVERAGE else 1
    let risk_amount := balance * RISK_PER_TRADE
    let risk_per_share := entry_price - stop_loss
    let q0 : ℤ := truncQ (risk_amount * leverage / risk_per_share)
    let quantity : ℤ := if q0 ≤ 0 then 1 else q0
    .ok ⟨quantity, round2 risk_amount, RISK_PER_TRADE * 100, leverage⟩

/-- risk.py `calculate_r` (lines 67-79). -/
def calculate_r (entry_price exit_price stop_loss : ℚ) : ℚ :=
  let risk_per_share := entry_price - stop_loss
  if risk_per_share ≤ 0 then 0
  else round2 ((exit_price - entry_price) / risk_per_share)

/-- strategy_meanrev.py `update_trailing_stop` (lines 537-544). -/
def update_trailing_stop (current_price current_stop trail_step : ℚ) : ℚ :=
  round2 (max (current_price - trail_step) current_stop)

/-- executor.py `open_conservative_trade` (lines 235-277).  The order
gateway (`place_bracket_order`) is abstracted as a function from the
submitted share quantity to an optional order identifier; a sizing
`ValueError` propagates as `Except.error`. -/
def open_conservative_trade (signal : ConservativeSignal) (balance : ℚ)
    (gateway : ℤ → Option String) : Except String (Option OpenTrade) :=
  match calculate_position_size balance signal.entry_price signal.stop_loss false with
  | .error e => .error e
  | .ok sizing =>
    match gateway sizing.quantity with
    | none => .ok none
    | some order_id =>
      .ok (some
        { ticker      := signal.ticker
          strategy    := "conservative"
          order_id    := order_id
          entry_price := signal.entry_price
          stop_loss   := signal.stop_loss
          target      := signal.target
          trail_stop  := signal.trail_stop
          trail_step  := 0
          quantity    := (sizing.quantity : ℚ)
          risk_amount := sizing.risk_amount })

/-- executor.py `open_meanrev_trade` (lines 280-321).  Note line 319 of the
source: the constructed trade's `quantity` field is assigned
`signal.entry_price`, while the bracket order is submitted with
`sizing["quantity"]`. -/
def open_meanrev_trade (signal : MeanRevSignal) (balance : ℚ)
    (gateway : ℤ → Option String) : Except String (Option OpenTrade) :=
  match calculate_position_size balance signal.entry_price signal.stop_loss true with
  | .error e => .error e
  | .ok sizing =>
    match gateway sizing.quantity with
    | none => .ok none
    | some order_id =>
      .ok (some
        { ticker      := signal.ticker
          strategy    := "meanrev"
          order_id    := order_id
          entry_price := signal.entry_price
          stop_loss   := signal.stop_loss
          target      := signal.target
          trail_stop  := 0
          trail_step  := signal.trail_step
          quantity    := signal.entry_price
          risk_amount := sizing.risk_amount })

/-- `true` exactly when an entry routine produced an `OpenTrade`. -/
def createsTrade : Except String (Option OpenTrade) → Bool
  | .ok (some _) => true
  | _ => false

/-- `true` exactly when `calculate_position_size` raised (`Except.error`). -/
def isError : Except String Sizing → Bool
  | .error _ => true
  | .ok _ => false

/-- The dict returned by executor.py `monitor_trade`. -/
structure MonitorResult where
  status   : String
  price    : ℚ
  r        : ℚ
  new_stop : ℚ
deriving DecidableEq, Repr

/-- executor.py `monitor_trade` (lines 328-391), with the price fetched by
`get_current_price` passed in as `current_price` (that helper returns 0.0
when the quote is missing or the request fails). -/
def monitor_trade (trade : OpenTrade) (current_price : ℚ) : MonitorResult :=
  if current_price ≤ 0 then
    ⟨"open", 0, 0, trade.stop_loss⟩
  else
    let r_current := calculate_r trade.entry_price current_price trade.stop_loss
    if current_price ≤ trade.stop_loss then
      ⟨"stopped", current_price, r_current, trade.stop_loss⟩
    else if current_price ≥ trade.target then
      ⟨"target", current_price, r_current, trade.stop_loss⟩
    else if trade.strategy = "conservative" ∧ 1 ≤ r_current ∧
        trade.trail_stop < current_price then
      ⟨"trail_updated", current_price, r_current, trade.trail_stop⟩
    else if trade.strategy = "meanrev" ∧ 0 < trade.trail_step ∧
        trade.stop_loss <
          update_trailing_stop current_price trade.stop_loss trade.trail_step then
      ⟨"trail_updated", current_price, r_current,
        update_trailing_stop current_price trade.stop_loss trade.trail_step⟩
    else
      ⟨"open", current_price, r_current, trade.stop_loss⟩

/-- State-passing translation of executor.py `monitor_trade`: the trade
record is threaded through every statement of the body.  The source contains
no assignment to any attribute of `trade`, so each `return` yields the trade
state it received. -/
def monitor_trade_st (trade : OpenTrade) (current_price : ℚ) :
    MonitorResult × OpenTrade :=
  if current_price ≤ 0 then
    (⟨"open", 0, 0, trade.stop_loss⟩, trade)
  else
    let r_current := calculate_r trade.entry_price current_price trade.stop_loss
    if current_price ≤ trade.stop_loss then
      (⟨"stopped", current_price, r_current, trade.stop_loss⟩, trade)
    else if current_price ≥ trade.target then
      (⟨"target", current_price, r_current, trade.stop_loss⟩, trade)
    else if trade.strategy = "conservative" ∧ 1 ≤ r_current ∧
        trade.trail_stop < current_price then
      (⟨"trail_updated", current_price, r_current, trade.trail_stop⟩, trade)
    else if trade.strategy = "meanrev" ∧ 0 < trade.trail_step ∧
        trade.stop_loss <
          update_trailing_stop current_price trade.stop_loss trade.trail_step then
      (⟨"trail_updated", current_price, r_current,
        update_trailing_stop current_price trade.stop_loss trade.trail_step⟩, trade)
    else
      (⟨"open", current_price, r_current, trade.stop_loss⟩, trade)

/-- main.py `_monitor_open_trades` (lines 201-211), restricted to the effect
of one tick on the trade record itself: on a `trail_updated` result the
caller writes the returned `new_stop` into `trade.stop_loss`; on every other
status the record is not written (closed trades are merely removed from the
managed list). -/
def apply_tick (trade : OpenTrade) (price : ℚ) : OpenTrade :=
  let result := monitor_trade trade price
  if result.status = "trail_updated" then
    { trade with stop_loss := result.new_stop }
  else
    trade

/-- risk.py `DailyRiskManager` state (lines 92-97). -/
structure DailyRiskManager where
  daily_losses : ℕ
  daily_wins   : ℕ
  daily_pnl    : ℚ
  daily_r      : ℚ
  is_stopped   : Bool
deriving DecidableEq, Repr

/-- risk.py `DailyRiskManager.__init__`. -/
def DailyRiskManager.init : DailyRiskManager := ⟨0, 0, 0, 0, false⟩

/-- risk.py `DailyRiskManager.record_win` (lines 99-103). -/
def record_win (m : DailyRiskManager) (pnl r_achieved : ℚ) : DailyRiskManager :=
  { m with
    daily_wins := m.daily_wins + 1
    daily_pnl  := m.daily_pnl + pnl
    daily_r    := m.daily_r + r_achieved }

/-- risk.py `DailyRiskManager.record_loss` (lines 105-118): returns the
updated state together with the halt flag the method returns. -/
def record_loss (m : DailyRiskManager) (pnl r_achieved : ℚ) :
    DailyRiskManager × Bool :=
  let m' : DailyRiskManager :=
    { m with
      daily_losses := m.daily_losses + 1
      daily_pnl    := m.daily_pnl + pnl
      daily_r      := m.daily_r + r_achieved }
  if MAX_DAILY_LOSSES ≤ m'.daily_losses then
    ({ m' with is_stopped := true }, true)
  else
    (m', false)

/-- risk.py `DailyRiskManager.can_trade` (lines 120-122). -/
def can_trade (m : DailyRiskManager) : Bool := !m.is_stopped

/-- risk.py `DailyRiskManager.reset` (lines 139-141): re-runs `__init__`. -/
def DailyRiskManager.reset (_ : DailyRiskManager) : DailyRiskManager :=
  DailyRiskManager.init

/-- A recording event against the daily risk manager. -/
inductive RiskEvent where
  | win (pnl r_achieved : ℚ)
  | loss (pnl r_achieved : ℚ)
deriving DecidableEq, Repr

/-- Apply one recording event (the returned halt flag of a loss is dropped). -/
def applyEvent (m : DailyRiskManager) : RiskEvent → DailyRiskManager
  | .win pnl r => record_win m pnl r
  | .loss pnl r => (record_loss m pnl r).1

/-- Apply a sequence of recording events in order. -/
def applyEvents (m : DailyRiskManager) (es : List RiskEvent) : DailyRiskManager :=
  es.foldl applyEvent m

/-! ### Helper lemmas -/

/-- Python's truncation followed by the minimum-one bump agrees with
"floor, floored to a minimum of 1". -/
lemma trunc_bump_eq_max (v : ℚ) :
    (if truncQ v ≤ 0 then (1 : ℤ) else truncQ v) = max 1 ⌊v⌋ := by
  rcases le_or_lt 0 v with h | h
  · rw [truncQ, if_pos h]
    rcases le_or_lt ⌊v⌋ 0 with h1 | h1
    · rw [if_pos h1]; omega
    · rw [if_neg (by omega)]; omega
  · have hf : (0 : ℤ) ≤ ⌊-v⌋ := Int.floor_nonneg.mpr (by linarith)
    have h0 : truncQ v ≤ 0 := by
      rw [truncQ, if_neg (not_le.mpr h)]; omega
    have hneg : ⌊v⌋ < 0 := by
      by_contra hc
      push_neg at hc
      have : (0 : ℚ) ≤ (⌊v⌋ : ℚ) := by exact_mod_cast hc
      have := Int.floor_le v
      linarith
    rw [if_pos h0]; omega

/-- On a valid entry/stop relationship the sizer succeeds and returns the
floor formula bumped to a minimum of one share. -/
lemma calculate_position_size_ok (b e s : ℚ) (u : Bool)
    (he : 0 < e) (hs : 0 < s) (hse : s < e) :
    calculate_position_size b e s u =
      .ok ⟨max 1 ⌊b * RISK_PER_TRADE * (if u then STRATEGY2_LEVERAGE else 1) / (e - s)⌋,
           round2 (b * RISK_PER_TRADE), RISK_PER_TRADE * 100,
           if u then STRATEGY2_LEVERAGE else 1⟩ := by
  have h1 : ¬(e ≤ 0 ∨ s ≤ 0) := by push_neg; exact ⟨he, hs⟩
  have h2 : ¬(s ≥ e) := not_le.mpr hse
  simp only [calculate_position_size, if_neg h1, if_neg h2, trunc_bump_eq_max]

/-- One monitor tick, as applied by the caller, never lowers the stop,
provided a conservative trade's fixed trail level is at or above its
current stop; and that proviso is preserved by the tick. -/
lemma apply_tick_stop_le (t : OpenTrade) (p : ℚ)
    (h : t.strategy = "conservative" → t.stop_loss ≤ t.trail_stop) :
    t.stop_loss ≤ (apply_tick t p).stop_loss ∧
      ((apply_tick t p).strategy = "conservative" →
        (apply_tick t p).stop_loss ≤ (apply_tick t p).trail_stop) := by
  simp only [apply_tick, monitor_trade]
  split_ifs <;> simp_all <;> linarith

/-- Monotonicity of the stop across a whole history of monitor ticks. -/
lemma foldl_stop_mono (ps : List ℚ) : ∀ t : OpenTrade,
    (t.strategy = "conservative" → t.stop_loss ≤ t.trail_stop) →
    t.stop_loss ≤ (ps.foldl apply_tick t).stop_loss := by
  induction ps with
  | nil => intro t _; simp
  | cons p ps ih =>
    intro t h
    have step := apply_tick_stop_le t p h
    have rest := ih (apply_tick t p) step.2
    simpa using le_trans step.1 rest

/-- No single recording event un-latches the governor's halt flag. -/
lemma applyEvent_latch (m : DailyRiskManager) (ev : RiskEvent)
    (h : m.is_stopped = true) : (applyEvent m ev).is_stopped = true := by
  cases ev with
  | win pnl r => simpa [applyEvent, record_win] using h
  | loss pnl r =>
    simp only [applyEvent, record_loss]
    split_ifs <;> simpa using h

/-- No sequence of recording events un-latches the governor's halt flag. -/
lemma applyEvents_latch (es : List RiskEvent) : ∀ m : DailyRiskManager,
    m.is_stopped = true → (applyEvents m es).is_stopped = true := by
  induction es with
  | nil => intro m h; simpa [applyEvents] using h
  | cons e es ih =>
    intro m h
    simpa [applyEvents] using ih (applyEvent m e) (applyEvent_latch m e h)

/-! ### Claim theorems -/

/-- C1: executor.py line 319 assigns `quantity=signal.entry_price` to the
constructed `OpenTrade`, not the sizer's quantity.  At balance $1000,
entry $50, stop $48 with leverage the sizer computes 30 shares (and 30 is
what the bracket order submits), yet the returned trade's quantity field
is 50 — the entry price. -/
theorem open_meanrev_trade_quantity_is_entry_price :
    calculate_position_size 1000 50 48 true = .ok ⟨30, 30, 3, 2⟩
    ∧ open_meanrev_trade ⟨"NVDA", true, 50, 48, 52, 56, 56, 49, 20, 1, 1/4, "high", "ok"⟩
        1000 (fun _ => some "OID")
      = .ok (some ⟨"NVDA", "meanrev", "OID", 50, 48, 56, 0, 1/4, 50, 30⟩)
    ∧ ((30 : ℤ) : ℚ) < 50 := by
  refine ⟨?_, ?_, by norm_num⟩
  · norm_num [calculate_position_size, truncQ, round2, RISK_PER_TRADE, STRATEGY2_LEVERAGE]
  · norm_num [open_meanrev_trade, calculate_position_size, truncQ, round2,
      RISK_PER_TRADE, STRATEGY2_LEVERAGE]

/-- C2: on a tick with an observed (positive) price satisfying both the
stop condition and the target condition, the monitor reports `stopped`,
never `target`: the stop check is evaluated first. -/
theorem monitor_trade_stop_priority (t : OpenTrade) (p : ℚ)
    (hp : 0 < p) (hstop : p ≤ t.stop_loss) (htarget : t.target ≤ p) :
    (monitor_trade t p).status = "stopped" := by
  simp only [monitor_trade, if_neg (not_le.mpr hp), if_pos hstop]

/-- C2 witness: a concrete trade whose stop (5) sits above its target (3),
ticked at price 4. -/
theorem monitor_trade_stop_priority_witness :
    (monitor_trade ⟨"X", "meanrev", "oid", 10, 5, 3, 0, 0, 1, 1⟩ 4).status = "stopped" :=
  monitor_trade_stop_priority ⟨"X", "meanrev", "oid", 10, 5, 3, 0, 0, 1, 1⟩ 4
    (by norm_num) (by norm_num) (by norm_num)

/-- C3 counterexample: the conservative trailing branch installs the
signal's fixed `trail_stop` with no maximum against the current stop
(executor.py lines 365-373).  A conservative trade created by the entry
routine from a signal with `trail_stop = 5` below `stop_loss = 10` gets a
`trail_updated` result whose `new_stop = 5` lowers the stop from 10 to 5
once the caller applies it. -/
theorem conservative_trail_update_lowers_stop :
    open_conservative_trade ⟨"X", true, 11, 10, 100, 5, "r"⟩ 100 (fun _ => some "OID")
      = .ok (some ⟨"X", "conservative", "OID", 11, 10, 100, 5, 0, 3, 3⟩)
    ∧ (monitor_trade ⟨"X", "conservative", "OID", 11, 10, 100, 5, 0, 3, 3⟩ 12).status
      = "trail_updated"
    ∧ (monitor_trade ⟨"X", "conservative", "OID", 11, 10, 100, 5, 0, 3, 3⟩ 12).new_stop = 5
    ∧ (apply_tick ⟨"X", "conservative", "OID", 11, 10, 100, 5, 0, 3, 3⟩ 12).stop_loss = 5
    ∧ (5 : ℚ) < 10 := by
  refine ⟨?_, ?_, ?_, ?_, by norm_num⟩
  · norm_num [open_conservative_trade, calculate_position_size, truncQ, round2,
      RISK_PER_TRADE]
  · norm_num [monitor_trade, calculate_r, round2]
  · norm_num [monitor_trade, calculate_r, round2]
  · norm_num [apply_tick, monitor_trade, calculate_r, round2]

/-- C3 amended: over any history of monitor ticks, the stop_loss is
non-decreasing provided a conservative trade's fixed trail level is at or
above its stop_loss (the mean-reversion trail needs no proviso: its update
is guarded by `new_stop > stop_loss`). -/
theorem stop_loss_monotone_over_history (t : OpenTrade) (ps : List ℚ)
    (h : t.strategy = "conservative" → t.stop_loss ≤ t.trail_stop) :
    t.stop_loss ≤ (ps.foldl apply_tick t).stop_loss :=
  foldl_stop_mono ps t h

/-- C3 amended witness: a concrete mean-reversion trade over a three-tick
history. -/
theorem stop_loss_monotone_over_history_witness :
    (⟨"NVDA", "meanrev", "oid", 100, 95, 115, 0, 1/2, 10, 30⟩ : OpenTrade).stop_loss ≤
      (([105, 2, 108] : List ℚ).foldl apply_tick
        ⟨"NVDA", "meanrev", "oid", 100, 95, 115, 0, 1/2, 10, 30⟩).stop_loss :=
  stop_loss_monotone_over_history ⟨"NVDA", "meanrev", "oid", 100, 95, 115, 0, 1/2, 10, 30⟩
    [105, 2, 108] (by intro hcons; simp at hcons)

/-- C4: at the spec's TP1 scenario (entry 100, stop 95, tp1 = 105,
tp2 = target = 115), a tick at price 105 on a mean-reversion trade yields a
plain trailing-stop update to 104.5: no first-leg exit, no `tp1_hit` flip,
and no break-even migration of the stop to the 100 entry — the executor
implements no TP1 transition at all. -/
theorem monitor_trade_no_tp1_transition :
    monitor_trade ⟨"NVDA", "meanrev", "oid", 100, 95, 115, 0, 1/2, 10, 30⟩ 105
      = ⟨"trail_updated", 105, 1, 209/2⟩ := by
  norm_num [monitor_trade, calculate_r, update_trailing_stop, round2]
  decide

/-- C5: the sizer fails exactly when `entry ≤ 0`, `stop ≤ 0` or
`stop ≥ entry`; otherwise it returns
`floor(balance × RISK_PER_TRADE × leverage / (entry − stop))` floored to a
minimum of 1 share, with leverage 2 iff `use_leverage`; and the
balance=$1000, entry=$50, stop=$48 scenario yields risk_amount=$30 and
quantity=15. -/
theorem calculate_position_size_spec (b e s : ℚ) (u : Bool) :
    (isError (calculate_position_size b e s u) = true ↔ e ≤ 0 ∨ s ≤ 0 ∨ e ≤ s)
    ∧ (0 < e → 0 < s → s < e →
        calculate_position_size b e s u =
          .ok ⟨max 1 ⌊b * RISK_PER_TRADE * (if u then STRATEGY2_LEVERAGE else 1) / (e - s)⌋,
               round2 (b * RISK_PER_TRADE), RISK_PER_TRADE * 100,
               if u then STRATEGY2_LEVERAGE else 1⟩)
    ∧ calculate_position_size 1000 50 48 false = .ok ⟨15, 30, 3, 1⟩ := by
  refine ⟨?_, fun he hs hse => calculate_position_size_ok b e s u he hs hse, ?_⟩
  · by_cases h1 : e ≤ 0 ∨ s ≤ 0
    · simp only [calculate_position_size, if_pos h1, isError]
      tauto
    · by_cases h2 : e ≤ s
      · simp only [calculate_position_size, if_neg h1, if_pos h2, isError]
        tauto
      · push_neg at h1
        rw [calculate_position_size_ok b e s u h1.1 h1.2 (not_le.mp h2)]
        simp only [isError, Bool.false_eq_true, false_iff]
        push_neg
        exact ⟨h1.1, h1.2, not_le.mp h2⟩
  · norm_num [calculate_position_size, truncQ, round2, RISK_PER_TRADE]

/-- C5 witness: the success formula instantiated at the spec's scenario. -/
theorem calculate_position_size_spec_witness :
    calculate_position_size 1000 50 48 false =
      .ok ⟨max 1 ⌊(1000 : ℚ) * RISK_PER_TRADE * (if false then STRATEGY2_LEVERAGE else 1)
            / (50 - 48)⌋,
           round2 (1000 * RISK_PER_TRADE), RISK_PER_TRADE * 100,
           if false then STRATEGY2_LEVERAGE else 1⟩ :=
  (calculate_position_size_spec 1000 50 48 false).2.1 (by norm_num) (by norm_num) (by norm_num)

/-- C6: without leverage and with a non-negative balance, the number of
shares the sizer returns risks at most `balance × RISK_PER_TRADE` plus at
most one extra share's risk (the minimum-one bump), and is at least 1. -/
theorem sized_risk_bounded (b e s : ℚ) (sz : Sizing)
    (hb : 0 ≤ b) (hs : 0 < s) (hse : s < e)
    (h : calculate_position_size b e s false = .ok sz) :
    (sz.quantity : ℚ) * (e - s) ≤ b * RISK_PER_TRADE + (e - s) ∧ 1 ≤ sz.quantity := by
  have he : 0 < e := hs.trans hse
  rw [calculate_position_size_ok b e s false he hs hse] at h
  have hsz :
      sz = ⟨max 1 ⌊b * RISK_PER_TRADE * (if false then STRATEGY2_LEVERAGE else 1) / (e - s)⌋,
            round2 (b * RISK_PER_TRADE), RISK_PER_TRADE * 100,
            if false then STRATEGY2_LEVERAGE else 1⟩ := by
    injection h with h'
    exact h'.symm
  subst hsz
  simp only [if_neg Bool.false_ne_true, mul_one]
  have hpos : (0 : ℚ) < e - s := sub_pos.mpr hse
  have hrisk : (0 : ℚ) ≤ b * RISK_PER_TRADE := by
    have : (0 : ℚ) ≤ RISK_PER_TRADE := by norm_num [RISK_PER_TRADE]
    exact mul_nonneg hb this
  refine ⟨?_, le_max_left 1 _⟩
  rcases le_total ⌊b * RISK_PER_TRADE / (e - s)⌋ 1 with hm | hm
  · rw [max_eq_left hm]
    push_cast
    linarith
  · rw [max_eq_right hm]
    have hfl : (⌊b * RISK_PER_TRADE / (e - s)⌋ : ℚ) ≤ b * RISK_PER_TRADE / (e - s) :=
      Int.floor_le _
    have hmul : (⌊b * RISK_PER_TRADE / (e - s)⌋ : ℚ) * (e - s)
        ≤ b * RISK_PER_TRADE / (e - s) * (e - s) :=
      mul_le_mul_of_nonneg_right hfl hpos.le
    rw [div_mul_cancel₀ _ hpos.ne'] at hmul
    linarith

/-- C6 witness: the bound at the concrete scenario (15 shares × $2 = $30
≤ $30 + $2). -/
theorem sized_risk_bounded_witness :
    (((15 : ℤ) : ℚ)) * (50 - 48) ≤ 1000 * RISK_PER_TRADE + (50 - 48) ∧ (1 : ℤ) ≤ 15 := by
  have h := sized_risk_bounded 1000 50 48 ⟨15, 30, 3, 1⟩ (by norm_num) (by norm_num)
    (by norm_num)
    (by norm_num [calculate_position_size, truncQ, round2, RISK_PER_TRADE])
  exact h

/-- C7: a non-positive fetched price (how `get_current_price` signals a
missing quote) is treated as no observation: the monitor reports `open`
with `new_stop` equal to the unchanged stop_loss, never `stopped`, and the
trade record is untouched. -/
theorem monitor_trade_missing_price (t : OpenTrade) (p : ℚ) (hp : p ≤ 0) :
    monitor_trade t p = ⟨"open", 0, 0, t.stop_loss⟩ ∧ (monitor_trade_st t p).2 = t := by
  constructor
  · simp [monitor_trade, if_pos hp]
  · simp [monitor_trade_st, if_pos hp]

/-- C7 witness: a concrete trade ticked with the sentinel price 0. -/
theorem monitor_trade_missing_price_witness :
    monitor_trade ⟨"X", "meanrev", "oid", 10, 5, 20, 0, 1, 1, 1⟩ 0
        = ⟨"open", 0, 0, 5⟩
    ∧ (monitor_trade_st ⟨"X", "meanrev", "oid", 10, 5, 20, 0, 1, 1, 1⟩ 0).2
        = ⟨"X", "meanrev", "oid", 10, 5, 20, 0, 1, 1, 1⟩ :=
  monitor_trade_missing_price ⟨"X", "meanrev", "oid", 10, 5, 20, 0, 1, 1, 1⟩ 0 le_rfl

/-- C8: `record_loss` increments the loss count and returns `true` exactly
when the post-increment count reaches `MAX_DAILY_LOSSES`; once
`is_stopped` is set, `can_trade` stays `false` under any further win/loss
recordings; a third loss after the threshold still returns `true` and
still increments; and `reset` re-enables trading. -/
theorem daily_risk_governor_spec (m : DailyRiskManager) (pnl r : ℚ) :
    ((record_loss m pnl r).2 = true ↔ MAX_DAILY_LOSSES ≤ m.daily_losses + 1)
    ∧ (record_loss m pnl r).1.daily_losses = m.daily_losses + 1
    ∧ (m.is_stopped = true →
        ∀ es : List RiskEvent, can_trade (applyEvents m es) = false)
    ∧ ((record_loss (record_loss (record_loss DailyRiskManager.init pnl r).1 pnl r).1
          pnl r).2 = true
      ∧ (record_loss (record_loss (record_loss DailyRiskManager.init pnl r).1 pnl r).1
          pnl r).1.daily_losses = 3
      ∧ can_trade (record_loss (record_loss DailyRiskManager.init pnl r).1 pnl r).1 = false
      ∧ can_trade (record_loss (record_loss (record_loss DailyRiskManager.init pnl r).1
          pnl r).1 pnl r).1 = false)
    ∧ can_trade (DailyRiskManager.reset m) = true := by
  refine ⟨?_, ?_, ?_, ?_, ?_⟩
  · simp only [record_loss]
    split_ifs with h <;> simp_all
  · simp only [record_loss]
    split_ifs <;> rfl
  · intro h es
    simp [can_trade, applyEvents_latch es m h]
  · norm_num [record_loss, can_trade, DailyRiskManager.init, MAX_DAILY_LOSSES]
  · simp [can_trade, DailyRiskManager.reset, DailyRiskManager.init]

/-- C8 witness: the latch applied to a concrete halted state and a further
win and loss. -/
theorem daily_risk_governor_spec_witness :
    can_trade (applyEvents ⟨2, 0, -10, -2, true⟩
      [RiskEvent.win 5 1, RiskEvent.loss (-5) (-1)]) = false :=
  (daily_risk_governor_spec ⟨2, 0, -10, -2, true⟩ (-5) (-1)).2.2.1 rfl
    [RiskEvent.win 5 1, RiskEvent.loss (-5) (-1)]

/-- C9: when the order gateway returns no order identifier, neither entry
routine creates an `OpenTrade` — for every signal and balance. -/
theorem gateway_failure_creates_no_trade (csig : ConservativeSignal)
    (msig : MeanRevSignal) (b b' : ℚ) :
    createsTrade (open_conservative_trade csig b (fun _ => none)) = false
    ∧ createsTrade (open_meanrev_trade msig b' (fun _ => none)) = false := by
  constructor
  · unfold open_conservative_trade
    cases calculate_position_size b csig.entry_price csig.stop_loss false <;>
      simp [createsTrade]
  · unfold open_meanrev_trade
    cases calculate_position_size b' msig.entry_price msig.stop_loss true <;>
      simp [createsTrade]

/-- C10: the state-passing reading of `monitor_trade` returns its trade
argument unchanged in every branch and computes exactly the result record;
the stop update is applied afterwards by the caller
(`_monitor_open_trades`) from the returned `new_stop`, and only on a
`trail_updated` status. -/
theorem monitor_trade_frame (t : OpenTrade) (p : ℚ) :
    (monitor_trade_st t p).2 = t
    ∧ (monitor_trade_st t p).1 = monitor_trade t p
    ∧ ((monitor_trade t p).status = "trail_updated" →
        apply_tick t p = { t with stop_loss := (monitor_trade t p).new_stop })
    ∧ ((monitor_trade t p).status ≠ "trail_updated" → apply_tick t p = t) := by
  refine ⟨?_, ?_, ?_, ?_⟩
  · simp only [monitor_trade_st]
    split_ifs <;> rfl
  · simp only [monitor_trade_st, monitor_trade]
    split_ifs <;> rfl
  · intro h
    simp only [apply_tick, if_pos h]
  · intro h
    simp only [apply_tick, if_neg h]

/-- C10 witness: the frame property at a concrete trade and price whose
tick is a trailing-stop update. -/
theorem monitor_trade_frame_witness :
    (monitor_trade_st ⟨"NVDA", "meanrev", "oid", 100, 95, 115, 0, 1/2, 10, 30⟩ 105).2
      = ⟨"NVDA", "meanrev", "oid", 100, 95, 115, 0, 1/2, 10, 30⟩
    ∧ apply_tick ⟨"NVDA", "meanrev", "oid", 100, 95, 115, 0, 1/2, 10, 30⟩ 105
      = { (⟨"NVDA", "meanrev", "oid", 100, 95, 115, 0, 1/2, 10, 30⟩ : OpenTrade) with
          stop_loss :=
            (monitor_trade ⟨"NVDA", "meanrev", "oid", 100, 95, 115, 0, 1/2, 10, 30⟩
              105).new_stop } :=
  ⟨(monitor_trade_frame ⟨"NVDA", "meanrev", "oid", 100, 95, 115, 0, 1/2, 10, 30⟩ 105).1,
   (monitor_trade_frame ⟨"NVDA", "meanrev", "oid", 100, 95, 115, 0, 1/2, 10, 30⟩ 105).2.2.1
     (by norm_num [monitor_trade, calculate_r, update_trailing_stop, round2]; decide)⟩
